import Mathlib

/-!
Verification of the crypto-analyst-dashboard repository's specification
against its source.

The computed core is the Postgres trigger function
`update_coin_analyst_summary` in `supabase-analyst-targets-schema.sql`,
which aggregates the active `analyst_targets` rows of a symbol into one
`coin_analyst_summary` row.  The HTTP handlers (`POST /data`,
`GET /coin`, `GET /community`, `POST /seed`) are thin wrappers around
table reads/inserts and are embedded as pure state-passing functions.

Modelling conventions:
* Postgres `DECIMAL`/`NUMERIC` values are modelled as exact rationals
  (`ℚ`); rounding to the declared column scale and the float8 cast
  performed by `PERCENTILE_CONT` are not modelled, as no claim depends
  on sub-scale precision.
* SQL `NULL` is `Option`.  Aggregate functions ignore `NULL` inputs and
  yield `NULL` on empty input, as in Postgres.
* `STDDEV` is Postgres `STDDEV_SAMP`: `NULL` for fewer than two inputs,
  otherwise the square root of `(n * Σx² - (Σx)²) / (n * (n - 1))`
  (the accumulation formula used by `numeric_var_samp`).
* A statement that raises an SQL error is `Except.error`; the
  surrounding (triggering) statement is then rolled back.
* `INSERT ... ON CONFLICT (cols) DO UPDATE` requires a unique index on
  exactly `cols`; if the target table declares none, Postgres rejects
  the statement (SQLSTATE 42P10, "there is no unique or exclusion
  constraint matching the ON CONFLICT specification") before running
  it.  The unique indexes declared by the schema are recorded
  explicitly below.
-/

namespace CryptoDash

/-- One `analyst_targets` row (schema lines 23-43), restricted to the
columns the trigger reads.  `price_change_percent` and
`confidence_level` are nullable columns; `target_price`,
`current_price`, `symbol` and `timeframe` are `NOT NULL`.  The `UUID`
analyst id is modelled as a `Nat` identifier. -/
structure TargetRow where
  analyst_id : Nat
  symbol : String
  current_price : ℚ
  target_price : ℚ
  price_change_percent : Option ℚ
  timeframe : String
  confidence_level : Option ℤ
  is_active : Bool
deriving DecidableEq

/-- SQL `AVG` over the non-`NULL` inputs (already collected into a
list): `NULL` on empty input, otherwise the arithmetic mean. -/
def sqlAvg (xs : List ℚ) : Option ℚ :=
  if xs = [] then none else some (xs.sum / (xs.length : ℚ))

/-- Postgres `VAR_SAMP` over the non-`NULL` inputs: `NULL` for fewer
than two inputs, otherwise `(n * Σx² - (Σx)²) / (n * (n - 1))`. -/
def sqlVarSamp (xs : List ℚ) : Option ℚ :=
  if xs.length < 2 then none
  else some (((xs.length : ℚ) * (xs.map (fun x => x ^ 2)).sum - xs.sum ^ 2) /
    ((xs.length : ℚ) * ((xs.length : ℚ) - 1)))

/-- `PERCENTILE_CONT(0.5) WITHIN GROUP (ORDER BY x)`: sort the
non-`NULL` inputs, take row number `rn = 0.5 * (n - 1)` and linearly
interpolate between the values at positions `⌊rn⌋` and `⌈rn⌉`
(0-based).  `NULL` on empty input. -/
def percentileCont05 (xs : List ℚ) : Option ℚ :=
  let s := List.insertionSort (fun a b => a ≤ b) xs
  if s.length = 0 then none
  else
    let rn : ℚ := (1 / 2) * ((s.length : ℚ) - 1)
    let lo : Nat := (⌊rn⌋).toNat
    let hi : Nat := (⌈rn⌉).toNat
    some (s.getD lo 0 + (rn - ((⌊rn⌋ : ℤ) : ℚ)) * (s.getD hi 0 - s.getD lo 0))

/-- The `WHERE symbol = NEW.symbol AND is_active = true` filter of the
trigger's aggregation query (schema line 194). -/
def activeFor (sym : String) (rows : List TargetRow) : List TargetRow :=
  rows.filter (fun r => r.symbol = sym ∧ r.is_active = true)

/-- `CASE WHEN timeframe = tf THEN target_price END`: the per-row
masked column fed to the bucketed aggregates (schema lines 176-184). -/
def caseTf (tf : String) (r : TargetRow) : Option ℚ :=
  if r.timeframe = tf then some r.target_price else none

/-- `COUNT(CASE WHEN timeframe = tf THEN 1 END)`: number of rows whose
masked expression is non-`NULL`. -/
def tfCount (tf : String) (rows : List TargetRow) : Nat :=
  (rows.filterMap (caseTf tf)).length

/-- `AVG(CASE WHEN timeframe = tf THEN target_price END)`. -/
def tfAvg (tf : String) (rows : List TargetRow) : Option ℚ :=
  sqlAvg (rows.filterMap (caseTf tf))

/-- `PERCENTILE_CONT(0.5) WITHIN GROUP (ORDER BY CASE WHEN timeframe =
tf THEN target_price END)`. -/
def tfMedian (tf : String) (rows : List TargetRow) : Option ℚ :=
  percentileCont05 (rows.filterMap (caseTf tf))

/-- The `consensus_direction` CASE expression (schema lines 185-189):
`AVG(price_change_percent) > 5` yields bullish,
`AVG(price_change_percent) < -5` yields bearish, else neutral.  With a
`NULL` average both comparisons are unknown, so the `ELSE` branch
yields neutral. -/
def consensusDirection (rows : List TargetRow) : String :=
  match sqlAvg (rows.filterMap (fun r => r.price_change_percent)) with
  | none => "neutral"
  | some a => if a > 5 then "bullish" else if a < -5 then "bearish" else "neutral"

/-- `COUNT(DISTINCT analyst_id)` (schema line 175). -/
def distinctAnalystCount (rows : List TargetRow) : Nat :=
  (rows.map (fun r => r.analyst_id)).dedup.length

/-- `AVG(confidence_level)` (schema line 190), over non-`NULL`
confidence levels. -/
def avgConfidence (rows : List TargetRow) : Option ℚ :=
  sqlAvg (rows.filterMap (fun r => (r.confidence_level).map (fun z => (z : ℚ))))

/-- SQL errors the embedded statements can raise. -/
inductive PgError where
  | divisionByZero
  | noUniqueOrExclusionConstraintMatchingOnConflict
deriving DecidableEq

/-- `STDDEV(target_price) / AVG(target_price) * 100` (schema line 191),
evaluated with SQL operator semantics: an operator with a `NULL`
operand yields `NULL` without being executed, and a division of
non-`NULL` operands with divisor `0` raises `division by zero`.
`STDDEV` of the inputs is `Real.sqrt` of `sqlVarSamp`. -/
noncomputable def priceDispersionResult (xs : List ℚ) : Except PgError (Option ℝ) :=
  match sqlVarSamp xs, sqlAvg xs with
  | none, _ => .ok none
  | some _, none => .ok none
  | some v, some a =>
      if a = 0 then .error .divisionByZero
      else .ok (some (Real.sqrt (v : ℝ) / (a : ℝ) * 100))

/-- One `coin_analyst_summary` row (schema lines 77-96), omitting the
surrogate `id` and `created_at`.  Columns beyond the counts are
nullable; `last_updated` is a timestamp modelled as a `Nat` tick. -/
structure SummaryRow where
  symbol : String
  current_price : ℚ
  total_analysts : Nat
  short_term_targets : Nat
  medium_term_targets : Nat
  long_term_targets : Nat
  avg_short_term_target : Option ℚ
  avg_medium_term_target : Option ℚ
  avg_long_term_target : Option ℚ
  median_short_term_target : Option ℚ
  median_medium_term_target : Option ℚ
  median_long_term_target : Option ℚ
  consensus_direction : Option String
  confidence_level : Option ℚ
  price_dispersion : Option ℝ
  last_updated : Nat

/-- The `SELECT` of the trigger function (schema lines 172-194): the
summary values computed from the active rows of `NEW.symbol`, with
`current_price` taken from `NEW` and `last_updated := NOW()`.  Raises
`division by zero` exactly when the `price_dispersion` expression
does. -/
noncomputable def aggregateResult (now : Nat) (sym : String) (newCurrentPrice : ℚ)
    (allRows : List TargetRow) : Except PgError SummaryRow :=
  let rows := activeFor sym allRows
  let tps := rows.map (fun r => r.target_price)
  match priceDispersionResult tps with
  | .error e => .error e
  | .ok disp => .ok
      { symbol := sym
        current_price := newCurrentPrice
        total_analysts := distinctAnalystCount rows
        short_term_targets := tfCount "short_term" rows
        medium_term_targets := tfCount "medium_term" rows
        long_term_targets := tfCount "long_term" rows
        avg_short_term_target := tfAvg "short_term" rows
        avg_medium_term_target := tfAvg "medium_term" rows
        avg_long_term_target := tfAvg "long_term" rows
        median_short_term_target := tfMedian "short_term" rows
        median_medium_term_target := tfMedian "medium_term" rows
        median_long_term_target := tfMedian "long_term" rows
        consensus_direction := some (consensusDirection rows)
        confidence_level := avgConfidence rows
        price_dispersion := disp
        last_updated := now }

/-- Column sets on which `coin_analyst_summary` declares a unique or
exclusion constraint: only the `id` primary key (schema line 78).  The
index `idx_coin_analyst_summary_symbol` (schema line 108) is a plain,
non-unique index, so it is not listed. -/
def coinAnalystSummaryUniqueIndexes : List (List String) := [["id"]]

/-- Whether `ON CONFLICT (symbol)` can infer a unique-index arbiter on
`coin_analyst_summary`. -/
def onConflictSymbolArbiterOk : Bool :=
  coinAnalystSummaryUniqueIndexes.contains ["symbol"]

/-- The `DO UPDATE` branch of the upsert (schema lines 195-210): every
non-key column of the conflicting row is overwritten with the freshly
computed (`EXCLUDED`) values.  When no row with the symbol exists the
computed row is inserted. -/
def upsertBySymbol (v : SummaryRow) (tbl : List SummaryRow) : List SummaryRow :=
  if tbl.any (fun r => r.symbol = v.symbol) then
    tbl.map (fun r => if r.symbol = v.symbol then v else r)
  else tbl ++ [v]

/-- Database state: the two tables the trigger touches. -/
structure Db where
  analyst_targets : List TargetRow
  coin_analyst_summary : List SummaryRow

/-- The body of `update_coin_analyst_summary` (schema lines 150-214):
`INSERT INTO coin_analyst_summary ... SELECT ... ON CONFLICT (symbol)
DO UPDATE SET ...`.  Postgres first infers the conflict arbiter; since
`coin_analyst_summary` has no unique constraint on `symbol`, that
inference fails with SQLSTATE 42P10 and the statement (and hence the
triggering write) is aborted.  Were an arbiter available, the computed
summary would be upserted keyed by symbol. -/
noncomputable def runSummaryTrigger (now : Nat) (new : TargetRow) (db : Db) :
    Except PgError Db :=
  if onConflictSymbolArbiterOk = false then
    .error .noUniqueOrExclusionConstraintMatchingOnConflict
  else
    match aggregateResult now new.symbol new.current_price db.analyst_targets with
    | .error e => .error e
    | .ok v => .ok { db with coin_analyst_summary := upsertBySymbol v db.coin_analyst_summary }

/-- `INSERT` of one row into `analyst_targets`: the row is added, then
the `AFTER INSERT` trigger `update_coin_analyst_summary_trigger`
(schema lines 217-219) runs; a trigger error rolls the whole statement
back. -/
noncomputable def insertAnalystTarget (now : Nat) (r : TargetRow) (db : Db) :
    Except PgError Db :=
  runSummaryTrigger now r { db with analyst_targets := db.analyst_targets ++ [r] }

/-- `DELETE FROM analyst_targets WHERE p`: the trigger is declared
`AFTER INSERT OR UPDATE` only (schema line 218), so a delete never
recomputes any summary. -/
def deleteAnalystTargets (p : TargetRow → Bool) (db : Db) : Db :=
  { db with analyst_targets := db.analyst_targets.filter (fun r => (p r) = false) }

/-- A seed row of the initial `INSERT INTO coin_analyst_summary
(symbol, current_price, total_analysts) VALUES ...` (schema lines
222-232): counts default to `0`, every other aggregate column defaults
to `NULL`. -/
def initSummaryRow (sym : String) (t : Nat) : SummaryRow :=
  { symbol := sym
    current_price := 0
    total_analysts := 0
    short_term_targets := 0
    medium_term_targets := 0
    long_term_targets := 0
    avg_short_term_target := none
    avg_medium_term_target := none
    avg_long_term_target := none
    median_short_term_target := none
    median_medium_term_target := none
    median_long_term_target := none
    consensus_direction := none
    confidence_level := none
    price_dispersion := none
    last_updated := t }

/-- The ten symbols seeded by the schema file (lines 222-232). -/
def seedSymbols : List String :=
  ["BTC", "ETH", "SOL", "XRP", "BNB", "DOGE", "TRX", "SUI", "AVAX", "TAO"]

/-- The database state after running the schema file: `analyst_targets`
empty, one seeded summary row per seed symbol (at tick 0). -/
def initialDb : Db :=
  { analyst_targets := []
    coin_analyst_summary := seedSymbols.map (fun s => initSummaryRow s 0) }

/-! ### JSON values and the HTTP response envelope -/

/-- A JSON value, as produced by `NextResponse.json`. -/
inductive JVal where
  | jnull
  | jbool (b : Bool)
  | jnum (q : ℚ)
  | jstr (s : String)
  | jarr (xs : List JVal)
  | jobj (fields : List (String × JVal))

/-- First value bound to key `k` in a JSON object's field list. -/
def lookupField (fields : List (String × JVal)) (k : String) : Option JVal :=
  match fields with
  | [] => none
  | (k2, v) :: rest => if k2 = k then some v else lookupField rest k

/-- The spec's uniform envelope: a JSON object whose `success` field is
a boolean and whose `error` field, when present, is a string (`data`
may be anything and extra fields are allowed). -/
def isEnvelope : JVal → Bool
  | .jobj fields =>
      (match lookupField fields "success" with
       | some (.jbool _) => true
       | _ => false)
      &&
      (match lookupField fields "error" with
       | none => true
       | some (.jstr _) => true
       | _ => false)
  | _ => false

/-- An HTTP response: status code and JSON body. -/
structure HttpResponse where
  status : Nat
  body : JVal

/-! ### GET /coin (route handler of `src/unnamed/part_000`) -/

/-- `coins?.[0] || null`: the first fetched row, or JSON `null`. -/
def headOrNull : List JVal → JVal
  | [] => .jnull
  | v :: _ => v

/-- The success response of the coin route: given the four query
results it returns status 200 with body
`{coin: coins[0] or null, targets, tweets, correlation: correlations[0] or null}`
(part_000 lines 49-54). -/
def coinGetOk (coins targets tweets correlations : List JVal) : HttpResponse :=
  { status := 200
    body := .jobj
      [("coin", headOrNull coins)
      , ("targets", .jarr targets)
      , ("tweets", .jarr tweets)
      , ("correlation", headOrNull correlations)] }

/-- The catch branch of the coin route: status 500 with body
`{error: message}` (part_000 lines 56-61). -/
def coinGetCatch : HttpResponse :=
  { status := 500
    body := .jobj [("error", .jstr "데이터를 가져오는 중 오류가 발생했습니다.")] }

/-! ### GET /community (`src/app/api/community/route.ts`) -/

/-- The static `communityData` object of the community route (its
`mentions` and `trends` arrays, embedded verbatim). -/
def communityData : JVal :=
  .jobj
    [("mentions", .jarr
        [ .jobj
            [("id", .jstr "1"), ("platform", .jstr "Reddit")
            , ("coinSymbol", .jstr "BTC"), ("coinName", .jstr "Bitcoin")
            , ("mentionCount", .jnum 1250), ("sentimentScore", .jnum 0.6)
            , ("engagement", .jnum 8500), ("trendingScore", .jnum 85)
            , ("topHashtags", .jarr [.jstr "#Bitcoin", .jstr "#BTC", .jstr "#Crypto"])
            , ("topKeywords", .jarr [.jstr "ATH", .jstr "bullrun", .jstr "hodl"])
            , ("timestamp", .jstr "2024-01-25T10:00:00Z")]
        , .jobj
            [("id", .jstr "2"), ("platform", .jstr "Discord")
            , ("coinSymbol", .jstr "ETH"), ("coinName", .jstr "Ethereum")
            , ("mentionCount", .jnum 980), ("sentimentScore", .jnum 0.4)
            , ("engagement", .jnum 6200), ("trendingScore", .jnum 72)
            , ("topHashtags", .jarr [.jstr "#Ethereum", .jstr "#ETH", .jstr "#DeFi"])
            , ("topKeywords", .jarr [.jstr "upgrade", .jstr "gas", .jstr "staking"])
            , ("timestamp", .jstr "2024-01-25T09:30:00Z")]
        , .jobj
            [("id", .jstr "3"), ("platform", .jstr "Telegram")
            , ("coinSymbol", .jstr "DOGE"), ("coinName", .jstr "Dogecoin")
            , ("mentionCount", .jnum 2100), ("sentimentScore", .jnum 0.8)
            , ("engagement", .jnum 15000), ("trendingScore", .jnum 95)
            , ("topHashtags", .jarr [.jstr "#Dogecoin", .jstr "#DOGE", .jstr "#MemeCoin"])
            , ("topKeywords", .jarr [.jstr "moon", .jstr "elon", .jstr "community"])
            , ("timestamp", .jstr "2024-01-25T11:15:00Z")]])
    , ("trends", .jarr
        [ .jobj
            [("coinSymbol", .jstr "DOGE"), ("coinName", .jstr "Dogecoin")
            , ("totalMentions", .jnum 2100), ("sentimentTrend", .jnum 0.8)
            , ("engagementTrend", .jnum 0.7), ("trendingRank", .jnum 1)]
        , .jobj
            [("coinSymbol", .jstr "BTC"), ("coinName", .jstr "Bitcoin")
            , ("totalMentions", .jnum 1250), ("sentimentTrend", .jnum 0.6)
            , ("engagementTrend", .jnum 0.5), ("trendingRank", .jnum 2)]
        , .jobj
            [("coinSymbol", .jstr "ETH"), ("coinName", .jstr "Ethereum")
            , ("totalMentions", .jnum 980), ("sentimentTrend", .jnum 0.4)
            , ("engagementTrend", .jnum 0.3), ("trendingRank", .jnum 3)]
        , .jobj
            [("coinSymbol", .jstr "SOL"), ("coinName", .jstr "Solana")
            , ("totalMentions", .jnum 750), ("sentimentTrend", .jnum 0.2)
            , ("engagementTrend", .jnum 0.4), ("trendingRank", .jnum 4)]
        , .jobj
            [("coinSymbol", .jstr "ADA"), ("coinName", .jstr "Cardano")
            , ("totalMentions", .jnum 650), ("sentimentTrend", .jnum 0.3)
            , ("engagementTrend", .jnum 0.2), ("trendingRank", .jnum 5)]])]

/-- The success response of the community route: status 200 with body
`{success: true, data: communityData, timestamp: now}` (route.ts lines
57-61). -/
def communityGetOk (nowIso : String) : HttpResponse :=
  { status := 200
    body := .jobj
      [("success", .jbool true)
      , ("data", communityData)
      , ("timestamp", .jstr nowIso)] }

/-- The catch branch of the community route: status 500 with body
`{success: false, error: message}` (route.ts lines 62-67). -/
def communityGetCatch : HttpResponse :=
  { status := 500
    body := .jobj
      [("success", .jbool false)
      , ("error", .jstr "커뮤니티 데이터를 가져올 수 없습니다.")] }

/-! ### POST /data (route handler of `src/unnamed/part_001`) -/

/-- The four tables the data route can insert into; rows are kept as
the JSON payloads the client sent. -/
structure ApiDb where
  coin_data : List JVal
  analyst_targets : List JVal
  tweet_sentiments : List JVal
  correlation_analysis : List JVal
deriving Inhabited

/-- The `type` values of the data route's switch (part_001 lines
9-41). -/
def knownDataTypes : List String :=
  ["coin_data", "analyst_target", "tweet_sentiment", "correlation_analysis"]

/-- The data route handler: on a known `type` the payload is inserted
(one row) into the corresponding table and `{success: true}` is
returned with status 200; on any other `type` the switch's default
branch returns status 400 with `{error: message}` before any insert
runs (part_001 lines 42-49).  Database-side insert failures (the
`throw` after each insert) are not modelled: the claim about this
route concerns the dispatch, which precedes them. -/
def postData (ty : String) (payload : JVal) (db : ApiDb) : HttpResponse × ApiDb :=
  if ty = "coin_data" then
    (⟨200, .jobj [("success", .jbool true)]⟩,
      { db with coin_data := db.coin_data ++ [payload] })
  else if ty = "analyst_target" then
    (⟨200, .jobj [("success", .jbool true)]⟩,
      { db with analyst_targets := db.analyst_targets ++ [payload] })
  else if ty = "tweet_sentiment" then
    (⟨200, .jobj [("success", .jbool true)]⟩,
      { db with tweet_sentiments := db.tweet_sentiments ++ [payload] })
  else if ty = "correlation_analysis" then
    (⟨200, .jobj [("success", .jbool true)]⟩,
      { db with correlation_analysis := db.correlation_analysis ++ [payload] })
  else
    (⟨400, .jobj [("error", .jstr "지원하지 않는 데이터 타입입니다.")]⟩, db)

/-! ### POST /seed (`src/lib/seed.ts` and `src/app/api/seed/route.ts`) -/

/-- A `sampleCoins` row of `lib/seed.ts`. -/
structure SeedCoin where
  symbol : String
  name : String
  current_price : ℚ
  price_change_24h : ℚ
  price_change_percentage_24h : ℚ
  market_cap : ℚ
  volume_24h : ℚ
deriving DecidableEq

/-- A `sampleTargets` row of `lib/seed.ts`. -/
structure SeedTarget where
  coin_symbol : String
  analyst_name : String
  target_price : ℚ
  current_price : ℚ
  confidence_score : ℚ
  analysis_date : String
deriving DecidableEq

/-- A `sampleTweets` row of `lib/seed.ts`. -/
structure SeedTweet where
  coin_symbol : String
  influencer_name : String
  tweet_content : String
  sentiment_score : ℚ
  engagement_score : ℚ
  tweet_date : String
deriving DecidableEq

/-- A `sampleCorrelations` row of `lib/seed.ts`. -/
structure SeedCorrelation where
  coin_symbol : String
  analyst_correlation : ℚ
  sentiment_correlation : ℚ
  price_correlation : ℚ
  analysis_date : String
deriving DecidableEq

/-- `sampleCoins` (seed.ts lines 4-10). -/
def sampleCoins : List SeedCoin :=
  [ ⟨"BTC", "Bitcoin", 45000, 1200, 2.74, 850000000000, 25000000000⟩
  , ⟨"ETH", "Ethereum", 3200, -80, -2.44, 380000000000, 15000000000⟩
  , ⟨"ADA", "Cardano", 0.45, 0.02, 4.65, 15000000000, 800000000⟩
  , ⟨"SOL", "Solana", 95, 3.5, 3.82, 40000000000, 2000000000⟩
  , ⟨"DOT", "Polkadot", 6.8, -0.2, -2.86, 8000000000, 400000000⟩ ]

/-- `sampleTargets` (seed.ts lines 13-21). -/
def sampleTargets : List SeedTarget :=
  [ ⟨"BTC", "CryptoAnalyst_Pro", 50000, 45000, 0.85, "2024-01-15"⟩
  , ⟨"BTC", "BitcoinExpert", 48000, 45000, 0.78, "2024-01-14"⟩
  , ⟨"ETH", "EthereumInsider", 3500, 3200, 0.82, "2024-01-15"⟩
  , ⟨"ETH", "CryptoGuru", 3400, 3200, 0.75, "2024-01-14"⟩
  , ⟨"ADA", "CardanoAnalyst", 0.55, 0.45, 0.88, "2024-01-15"⟩
  , ⟨"SOL", "SolanaExpert", 110, 95, 0.80, "2024-01-15"⟩
  , ⟨"DOT", "PolkadotPro", 8.5, 6.8, 0.77, "2024-01-15"⟩ ]

/-- `sampleTweets` (seed.ts lines 24-32). -/
def sampleTweets : List SeedTweet :=
  [ ⟨"BTC", "CryptoWhale", "Bitcoin is showing strong bullish momentum! 🚀 The recent breakout above $45k is just the beginning.", 0.8, 15420, "2024-01-15T10:30:00Z"⟩
  , ⟨"BTC", "BitcoinMaxi", "HODL! Bitcoin will reach $100k by end of year. The fundamentals are stronger than ever.", 0.9, 8930, "2024-01-15T09:15:00Z"⟩
  , ⟨"ETH", "EthereumDev", "Ethereum 2.0 upgrades are progressing well. The merge was successful and we\x27re seeing improved efficiency.", 0.7, 12350, "2024-01-15T11:00:00Z"⟩
  , ⟨"ETH", "CryptoCritic", "Ethereum gas fees are still too high for regular users. Need more scaling solutions.", -0.3, 5670, "2024-01-15T08:45:00Z"⟩
  , ⟨"ADA", "CardanoFan", "Cardano\x27s smart contract capabilities are finally here! Exciting times ahead for ADA holders.", 0.6, 7890, "2024-01-15T12:20:00Z"⟩
  , ⟨"SOL", "SolanaBuilder", "Solana\x27s speed and low fees make it the perfect platform for DeFi applications.", 0.8, 11200, "2024-01-15T13:10:00Z"⟩
  , ⟨"DOT", "PolkadotEco", "Polkadot\x27s parachain auctions are bringing innovative projects to the ecosystem.", 0.5, 4450, "2024-01-15T14:30:00Z"⟩ ]

/-- `sampleCorrelations` (seed.ts lines 35-41). -/
def sampleCorrelations : List SeedCorrelation :=
  [ ⟨"BTC", 0.75, 0.68, 0.82, "2024-01-15"⟩
  , ⟨"ETH", 0.72, 0.61, 0.78, "2024-01-15"⟩
  , ⟨"ADA", 0.68, 0.55, 0.71, "2024-01-15"⟩
  , ⟨"SOL", 0.71, 0.63, 0.76, "2024-01-15"⟩
  , ⟨"DOT", 0.66, 0.48, 0.69, "2024-01-15"⟩ ]

/-- The rows persisted by the four seeding tables. -/
structure SeedDb where
  coin_data : List SeedCoin
  analyst_targets : List SeedTarget
  tweet_sentiments : List SeedTweet
  correlation_analysis : List SeedCorrelation
deriving DecidableEq

/-- Result object returned by `seedDatabase`. -/
structure SeedResult where
  success : Bool
deriving DecidableEq

/-- `seedDatabase` (seed.ts lines 43-106), with the outcome of each
supabase `insert` call supplied by per-table oracles (`true` = the
call returned an error object).  The supabase client reports insert
failures as returned error values, not exceptions, so the four loops
never throw: each error is only passed to `console.error` and the
loop continues, a successful call persists its row, and the function
ends at `return { success: true }` regardless of how many inserts
failed.  (The `catch` branch, reached only if an `await` itself
throws, returns `{ success: false }` and persists nothing further; it
is outside these executions.) -/
def seedDatabase (coinFails : SeedCoin → Bool) (targetFails : SeedTarget → Bool)
    (tweetFails : SeedTweet → Bool) (corrFails : SeedCorrelation → Bool) :
    SeedResult × SeedDb :=
  ({ success := true },
   { coin_data := sampleCoins.filter (fun c => coinFails c = false)
     analyst_targets := sampleTargets.filter (fun t => targetFails t = false)
     tweet_sentiments := sampleTweets.filter (fun t => tweetFails t = false)
     correlation_analysis := sampleCorrelations.filter (fun c => corrFails c = false) })

/-- The seed route handler (`app/api/seed/route.ts` lines 6-18): it
calls `seedDatabase` and returns 200 `{message, success: true}` when
`result.success` holds, else 500 `{error, success: false}`. -/
def seedRoutePost (coinFails : SeedCoin → Bool) (targetFails : SeedTarget → Bool)
    (tweetFails : SeedTweet → Bool) (corrFails : SeedCorrelation → Bool) :
    HttpResponse × SeedDb :=
  let r := seedDatabase coinFails targetFails tweetFails corrFails
  if r.1.success then
    (⟨200, .jobj
      [("message", .jstr "샘플 데이터가 성공적으로 생성되었습니다.")
      , ("success", .jbool true)]⟩, r.2)
  else
    (⟨500, .jobj
      [("error", .jstr "샘플 데이터 생성 중 오류가 발생했습니다.")
      , ("success", .jbool false)]⟩, r.2)

/-! ### Definitions following the specification's words

These render the spec's descriptions independently of the SQL, to be
compared with the embedded code. -/

/-- Spec: rows of a bucket are the rows whose `timeframe` equals the
bucket's, taken by their `target_price`. -/
def bucketTargets (tf : String) (rows : List TargetRow) : List ℚ :=
  (rows.filter (fun r => r.timeframe = tf)).map (fun r => r.target_price)

/-- Spec: arithmetic mean, null for an empty bucket (not zero). -/
def meanSpec (vals : List ℚ) : Option ℚ :=
  if vals = [] then none else some (vals.sum / (vals.length : ℚ))

/-- Spec: the median — middle element of the sorted values, or the
mean of the two middle elements for an even count; null for an empty
bucket. -/
def medianSpec (vals : List ℚ) : Option ℚ :=
  let s := List.insertionSort (fun a b => a ≤ b) vals
  if s.length = 0 then none
  else if s.length % 2 = 1 then some (s.getD (s.length / 2) 0)
  else some ((s.getD (s.length / 2 - 1) 0 + s.getD (s.length / 2) 0) / 2)

/-- Spec: classify the mean change — strictly above 5 bullish, strictly
below -5 bearish, else neutral; zero rows (null mean) is neutral. -/
def consensusSpec (vals : List ℚ) : String :=
  match meanSpec vals with
  | none => "neutral"
  | some m => if m > 5 then "bullish" else if m < -5 then "bearish" else "neutral"

/-- Sample variance as in the amended dispersion claim: sum of squared
deviations from the mean divided by `n - 1`. -/
def sampleVarianceSpec (vals : List ℚ) : ℚ :=
  (vals.map (fun x => (x - vals.sum / (vals.length : ℚ)) ^ 2)).sum /
    ((vals.length : ℚ) - 1)

/-- Population variance: sum of squared deviations from the mean
divided by `n`. -/
def popVarianceSpec (vals : List ℚ) : ℚ :=
  (vals.map (fun x => (x - vals.sum / (vals.length : ℚ)) ^ 2)).sum / (vals.length : ℚ)

/-- The dispersion the claim describes: population standard deviation
divided by the mean, times 100; null when the mean is null or zero. -/
noncomputable def popDispersionSpec (vals : List ℚ) : Option ℝ :=
  match sqlAvg vals with
  | none => none
  | some a =>
      if a = 0 then none
      else some (Real.sqrt ((popVarianceSpec vals : ℚ) : ℝ) / (a : ℝ) * 100)

/-- A summary row with its `last_updated` normalised, for comparing two
aggregation runs modulo the aggregation time. -/
def stripLastUpdated (v : SummaryRow) : SummaryRow := { v with last_updated := 0 }

/-- The derived columns of two summary rows agree (`consensus_direction`
first; `current_price` and `last_updated` are not functions of the
active rows and are not compared). -/
def derivedFieldsMatch (row agg : SummaryRow) : Prop :=
  row.consensus_direction = agg.consensus_direction ∧
  row.total_analysts = agg.total_analysts ∧
  row.short_term_targets = agg.short_term_targets ∧
  row.medium_term_targets = agg.medium_term_targets ∧
  row.long_term_targets = agg.long_term_targets ∧
  row.avg_short_term_target = agg.avg_short_term_target ∧
  row.avg_medium_term_target = agg.avg_medium_term_target ∧
  row.avg_long_term_target = agg.avg_long_term_target ∧
  row.median_short_term_target = agg.median_short_term_target ∧
  row.median_medium_term_target = agg.median_medium_term_target ∧
  row.median_long_term_target = agg.median_long_term_target ∧
  row.confidence_level = agg.confidence_level ∧
  row.price_dispersion = agg.price_dispersion

/-- The spec's invariant: every stored summary row carries exactly the
values the aggregation computes from the currently active target rows
of its symbol. -/
def summaryConsistent (db : Db) : Prop :=
  ∀ row ∈ db.coin_analyst_summary,
    ∃ agg,
      aggregateResult row.last_updated row.symbol row.current_price db.analyst_targets
        = .ok agg ∧ derivedFieldsMatch row agg

/-- The summary row the aggregation yields for a symbol with no active
target rows: zero counts, null per-bucket aggregates, neutral
consensus, null confidence and dispersion. -/
def emptyAggRow (sym : String) (cp : ℚ) (t : Nat) : SummaryRow :=
  { symbol := sym
    current_price := cp
    total_analysts := 0
    short_term_targets := 0
    medium_term_targets := 0
    long_term_targets := 0
    avg_short_term_target := none
    avg_medium_term_target := none
    avg_long_term_target := none
    median_short_term_target := none
    median_medium_term_target := none
    median_long_term_target := none
    consensus_direction := some "neutral"
    confidence_level := none
    price_dispersion := none
    last_updated := t }

/-! ### Concrete inputs used by the claims and their witnesses -/

/-- A concrete active BTC analyst target (the claims' failing and
witness input). -/
def btcTarget : TargetRow :=
  { analyst_id := 1
    symbol := "BTC"
    current_price := 45000
    target_price := 50000
    price_change_percent := some 11
    timeframe := "short_term"
    confidence_level := some 8
    is_active := true }

/-- Two active rows with `price_change_percent` 6 and 7 (spec example
for a bullish consensus). -/
def bullRowA : TargetRow := ⟨1, "BTC", 45000, 50000, some 6, "short_term", some 8, true⟩

/-- Second row of the bullish example. -/
def bullRowB : TargetRow := ⟨2, "BTC", 45000, 52000, some 7, "short_term", some 9, true⟩

/-- The spec's bucket example: two short-term rows with targets 100 and
110, one medium-term row with target 200, no long-term row. -/
def bucketExampleRows : List TargetRow :=
  [ ⟨1, "BTC", 45000, 100, none, "short_term", none, true⟩
  , ⟨2, "BTC", 45000, 110, none, "short_term", none, true⟩
  , ⟨3, "BTC", 45000, 200, none, "medium_term", none, true⟩ ]

/-- An empty API database for the data-route witness. -/
def emptyApiDb : ApiDb := ⟨[], [], [], []⟩

/-! ### Helper lemmas -/

/-- Aggregating the `CASE WHEN timeframe = tf THEN target_price END`
column over all rows sees exactly the target prices of the bucket. -/
theorem filterMap_caseTf (tf : String) (rows : List TargetRow) :
    rows.filterMap (caseTf tf) = bucketTargets tf rows := by
  induction rows with
  | nil => rfl
  | cons r rest ih =>
      by_cases h : r.timeframe = tf
      · simp [caseTf, bucketTargets, List.filterMap_cons, List.filter_cons, h] at ih ⊢
        exact ih
      · simp [caseTf, bucketTargets, List.filterMap_cons, List.filter_cons, h] at ih ⊢
        exact ih

/-- SQL `AVG` and the spec's arithmetic mean coincide. -/
theorem sqlAvg_eq_meanSpec (xs : List ℚ) : sqlAvg xs = meanSpec xs := rfl

/-- Expanding a sum of squared deviations from a constant. -/
theorem sum_sq_sub_const (c : ℚ) (xs : List ℚ) :
    (xs.map (fun x => (x - c) ^ 2)).sum
      = (xs.map (fun x => x ^ 2)).sum - 2 * c * xs.sum + (xs.length : ℚ) * c ^ 2 := by
  induction xs with
  | nil => simp
  | cons y ys ih =>
      simp only [List.map_cons, List.sum_cons, List.length_cons, ih]
      push_cast
      ring

/-- For at least two values, Postgres's `VAR_SAMP` accumulation formula
equals the textbook sample variance. -/
theorem sqlVarSamp_eq_sampleVariance (xs : List ℚ) (h2 : 2 ≤ xs.length) :
    sqlVarSamp xs = some (sampleVarianceSpec xs) := by
  have hlt : ¬ xs.length < 2 := by omega
  have hn : (xs.length : ℚ) ≠ 0 := Nat.cast_ne_zero.mpr (by omega)
  have hn1 : (xs.length : ℚ) - 1 ≠ 0 := by
    have : (2 : ℚ) ≤ (xs.length : ℚ) := by exact_mod_cast h2
    intro h
    linarith
  simp only [sqlVarSamp, sampleVarianceSpec, hlt, if_false, Option.some.injEq]
  rw [sum_sq_sub_const]
  field_simp
  ring

/-- A masked column in which every row is present recovers the plain
column. -/
theorem filterMap_of_map_some {α : Type} (f : TargetRow → Option α)
    (rows : List TargetRow) (vals : List α)
    (h : rows.map f = vals.map some) : rows.filterMap f = vals := by
  induction rows generalizing vals with
  | nil =>
      cases vals with
      | nil => rfl
      | cons v vs => simp at h
  | cons r rest ih =>
      cases vals with
      | nil => simp at h
      | cons v vs =>
          simp only [List.map_cons, List.cons.injEq] at h
          simp [List.filterMap_cons, h.1, ih vs h.2]

/-- `PERCENTILE_CONT(0.5)`'s linear interpolation computes exactly the
median: the middle sorted value, or the mean of the two middle sorted
values for an even count. -/
theorem percentileCont05_eq_medianSpec (xs : List ℚ) :
    percentileCont05 xs = medianSpec xs := by
  simp only [percentileCont05, medianSpec]
  generalize List.insertionSort (fun a b => a ≤ b) xs = s
  rcases hn : s.length with _ | m
  · simp
  · simp only [hn, Nat.succ_ne_zero, if_false]
    rcases Nat.even_or_odd (m + 1) with he | ho
    · -- even length: m + 1 = 2 * k with k ≥ 1
      obtain ⟨k, hk⟩ := he
      have hk1 : 1 ≤ k := by omega
      have hrn : (1 / 2 : ℚ) * (((m + 1 : Nat) : ℚ) - 1) = (k : ℚ) - 1 / 2 := by
        have hq : ((m + 1 : Nat) : ℚ) = (k : ℚ) + (k : ℚ) := by exact_mod_cast hk
        rw [hq]
        ring
      have hfl : ⌊(1 / 2 : ℚ) * (((m + 1 : Nat) : ℚ) - 1)⌋ = (k : ℤ) - 1 := by
        rw [hrn, Int.floor_eq_iff]
        constructor
        · push_cast
          linarith
        · push_cast
          linarith
      have hcl : ⌈(1 / 2 : ℚ) * (((m + 1 : Nat) : ℚ) - 1)⌉ = (k : ℤ) := by
        rw [hrn, Int.ceil_eq_iff]
        constructor
        · push_cast
          linarith
        · push_cast
          linarith
      have htn : ((k : ℤ) - 1).toNat = k - 1 := by omega
      have hmod : ¬ (m + 1) % 2 = 1 := by omega
      have hdiv1 : (m + 1) / 2 - 1 = k - 1 := by omega
      have hdiv2 : (m + 1) / 2 = k := by omega
      simp only [hfl, hcl, htn, Int.toNat_natCast, hmod, if_false, hdiv1, hdiv2,
        Option.some.injEq]
      rw [hrn]
      have : ((k : ℤ) - 1 : ℤ) = ((k : ℚ) - 1 : ℚ) := by push_cast; ring
      push_cast
      ring
    · -- odd length: m + 1 = 2 * k + 1
      obtain ⟨k, hk⟩ := ho
      have hrn : (1 / 2 : ℚ) * (((m + 1 : Nat) : ℚ) - 1) = (k : ℚ) := by
        have hq : ((m + 1 : Nat) : ℚ) = 2 * (k : ℚ) + 1 := by exact_mod_cast hk
        rw [hq]
        ring
      have hfl : ⌊(1 / 2 : ℚ) * (((m + 1 : Nat) : ℚ) - 1)⌋ = (k : ℤ) := by
        rw [hrn]
        exact Int.floor_natCast k
      have hcl : ⌈(1 / 2 : ℚ) * (((m + 1 : Nat) : ℚ) - 1)⌉ = (k : ℤ) := by
        rw [hrn]
        exact Int.ceil_natCast k
      have hmod : (m + 1) % 2 = 1 := by omega
      have hdiv : (m + 1) / 2 = k := by omega
      simp only [hfl, hcl, Int.toNat_natCast, hmod, if_true, hdiv, Option.some.injEq]
      rw [hrn]
      push_cast
      ring

/-- The aggregation over an empty target table yields the empty-symbol
summary row. -/
theorem aggregateResult_nil (t : Nat) (sym : String) (cp : ℚ) :
    aggregateResult t sym cp [] = .ok (emptyAggRow sym cp t) := rfl

/-! ### Claim theorems -/

/-- C1: the claimed upsert of the recomputed summary cannot happen.
`coin_analyst_summary` declares no unique or exclusion constraint on
`symbol` (only the non-unique index `idx_coin_analyst_summary_symbol`),
so the trigger's `INSERT ... ON CONFLICT (symbol) DO UPDATE` fails
arbiter inference (SQLSTATE 42P10) and every insert into
`analyst_targets` — here a concrete active BTC row against the
schema-initialized database — is rolled back instead of upserting a
summary row. -/
theorem c1_insert_aborts_without_unique_symbol :
    insertAnalystTarget 1 btcTarget initialDb
      = .error .noUniqueOrExclusionConstraintMatchingOnConflict := rfl

/-- C2: the consistency invariant fails already in the schema's initial
state.  The seed rows inserted by the schema file (e.g. the BTC row)
leave `consensus_direction` NULL, while the aggregation over the zero
active BTC target rows yields the value neutral, so the stored summary
is not the pure aggregation of the active rows. -/
theorem c2_initial_state_violates_invariant : ¬ summaryConsistent initialDb := by
  intro h
  have hmem : initSummaryRow "BTC" 0 ∈ initialDb.coin_analyst_summary := by
    simp [initialDb, seedSymbols]
  obtain ⟨agg, hagg, hmatch⟩ := h (initSummaryRow "BTC" 0) hmem
  have hempty : aggregateResult 0 "BTC" 0 initialDb.analyst_targets
      = .ok (emptyAggRow "BTC" 0 0) := rfl
  rw [show (initSummaryRow "BTC" 0).last_updated = 0 from rfl,
    show (initSummaryRow "BTC" 0).symbol = "BTC" from rfl,
    show (initSummaryRow "BTC" 0).current_price = 0 from rfl, hempty] at hagg
  have hagg2 : agg = emptyAggRow "BTC" 0 0 := by
    cases hagg
    rfl
  have hcons := hmatch.1
  rw [hagg2] at hcons
  simp [initSummaryRow, emptyAggRow] at hcons

/-- C4: the dispersion expression `STDDEV(target_price) /
AVG(target_price) * 100` does divide by zero.  With two active rows
whose target prices are both 0, `STDDEV` is 0 (non-NULL) and `AVG` is
0, so the aggregation raises a division-by-zero error instead of
yielding a null dispersion, and the triggering write is aborted. -/
theorem c4_dispersion_division_by_zero :
    priceDispersionResult [0, 0] = .error .divisionByZero := by
  norm_num [priceDispersionResult, sqlVarSamp, sqlAvg]
  simp

/-- C8: no run of the aggregation ever succeeds — each one aborts with
the missing-arbiter error of the `ON CONFLICT (symbol)` clause, so the
second run of the claimed idempotence scenario fails rather than
reproducing the summary row.  The aggregation's computed values
themselves are deterministic: two runs over unchanged rows agree on
every column except `last_updated`. -/
theorem c8_reruns_abort_but_values_deterministic :
    (∀ (now : Nat) (new : TargetRow) (db : Db),
      runSummaryTrigger now new db
        = .error .noUniqueOrExclusionConstraintMatchingOnConflict)
    ∧ (∀ (t1 t2 : Nat) (sym : String) (cp : ℚ) (rows : List TargetRow),
      (aggregateResult t1 sym cp rows).map stripLastUpdated
        = (aggregateResult t2 sym cp rows).map stripLastUpdated) := by
  constructor
  · intro now new db
    rfl
  · intro t1 t2 sym cp rows
    simp only [aggregateResult]
    cases priceDispersionResult ((activeFor sym rows).map (fun r => r.target_price)) with
    | error e => rfl
    | ok disp => rfl

/-- C3: for active rows whose `price_change_percent` values are all
present, the trigger's `consensus_direction` CASE expression computes
exactly the spec's classification of the arithmetic mean of those
values — strictly above 5 bullish, strictly below -5 bearish, else
neutral, and neutral (not an error) for zero rows. -/
theorem c3_consensus_from_mean_change :
    ∀ (rows : List TargetRow) (vals : List ℚ),
      rows.map (fun r => r.price_change_percent) = vals.map some →
      consensusDirection rows = consensusSpec vals := by
  intro rows vals h
  have hfm := filterMap_of_map_some (fun r => r.price_change_percent) rows vals h
  simp only [consensusDirection, consensusSpec, hfm, sqlAvg_eq_meanSpec]

/-- Witness for C3: the spec's bullish example, two active rows with
`price_change_percent` 6 and 7. -/
theorem c3_consensus_witness :
    ([bullRowA, bullRowB].map (fun r => r.price_change_percent)
        = ([6, 7] : List ℚ).map some)
    ∧ consensusDirection [bullRowA, bullRowB] = consensusSpec [6, 7] :=
  ⟨by decide, c3_consensus_from_mean_change [bullRowA, bullRowB] [6, 7] (by decide)⟩

/-- C6: for every list of active rows and every timeframe bucket, the
trigger's masked aggregates compute the bucket's row count, the
arithmetic mean of its target prices (null for an empty bucket) and
its median in the middle-of-sorted-values sense; and the spec's
concrete three-row example yields exactly the claimed values. -/
theorem c6_bucketed_count_mean_median :
    (∀ (rows : List TargetRow) (tf : String),
      tfCount tf rows = (bucketTargets tf rows).length
      ∧ tfAvg tf rows = meanSpec (bucketTargets tf rows)
      ∧ tfMedian tf rows = medianSpec (bucketTargets tf rows))
    ∧ (tfCount "short_term" bucketExampleRows = 2
      ∧ tfAvg "short_term" bucketExampleRows = some 105
      ∧ tfMedian "short_term" bucketExampleRows = some 105
      ∧ tfCount "medium_term" bucketExampleRows = 1
      ∧ tfAvg "medium_term" bucketExampleRows = some 200
      ∧ tfMedian "medium_term" bucketExampleRows = some 200
      ∧ tfCount "long_term" bucketExampleRows = 0
      ∧ tfAvg "long_term" bucketExampleRows = none
      ∧ tfMedian "long_term" bucketExampleRows = none) := by
  have hgen : ∀ (rows : List TargetRow) (tf : String),
      tfCount tf rows = (bucketTargets tf rows).length
      ∧ tfAvg tf rows = meanSpec (bucketTargets tf rows)
      ∧ tfMedian tf rows = medianSpec (bucketTargets tf rows) := by
    intro rows tf
    refine ⟨?_, ?_, ?_⟩
    · simp only [tfCount, filterMap_caseTf]
    · simp only [tfAvg, filterMap_caseTf, sqlAvg_eq_meanSpec]
    · simp only [tfMedian, filterMap_caseTf, percentileCont05_eq_medianSpec]
  refine ⟨hgen, ?_, ?_, ?_, ?_, ?_, ?_, ?_, ?_, ?_⟩
  · rw [(hgen bucketExampleRows _).1]
    decide
  · rw [(hgen bucketExampleRows _).2.1,
      show bucketTargets "short_term" bucketExampleRows = [100, 110] from by decide]
    norm_num [meanSpec]
    simp
  · rw [(hgen bucketExampleRows _).2.2,
      show bucketTargets "short_term" bucketExampleRows = [100, 110] from by decide]
    norm_num [medianSpec, List.insertionSort, List.orderedInsert, List.getD]
  · rw [(hgen bucketExampleRows _).1]
    decide
  · rw [(hgen bucketExampleRows _).2.1,
      show bucketTargets "medium_term" bucketExampleRows = [200] from by decide]
    norm_num [meanSpec]
  · rw [(hgen bucketExampleRows _).2.2,
      show bucketTargets "medium_term" bucketExampleRows = [200] from by decide]
    norm_num [medianSpec, List.insertionSort, List.orderedInsert, List.getD]
  · rw [(hgen bucketExampleRows _).1]
    decide
  · rw [(hgen bucketExampleRows _).2.1,
      show bucketTargets "long_term" bucketExampleRows = [] from by decide]
    rfl
  · rw [(hgen bucketExampleRows _).2.2,
      show bucketTargets "long_term" bucketExampleRows = [] from by decide]
    rfl

/-- C5 counterexample: for target prices 100 and 110 the claimed
dispersion (population standard deviation over the mean, as a
percentage) is `sqrt 25 / 105 * 100 = 100 / 21`, but the code's
`STDDEV` is the sample standard deviation, so the aggregation stores
`sqrt 50 / 105 * 100`, which differs. -/
theorem c5_population_stddev_counterexample :
    popDispersionSpec [100, 110] = some ((100 : ℝ) / 21)
    ∧ priceDispersionResult [100, 110] ≠ .ok (some ((100 : ℝ) / 21)) := by
  have h25 : Real.sqrt 25 = 5 := by
    rw [show (25 : ℝ) = 5 ^ 2 by norm_num]
    exact Real.sqrt_sq (by norm_num)
  have havg : sqlAvg [100, 110] = some 105 := by
    norm_num [sqlAvg]
    simp
  constructor
  · have hpv : popVarianceSpec [100, 110] = 25 := by
      norm_num [popVarianceSpec]
    simp only [popDispersionSpec, havg, hpv]
    push_cast
    norm_num [h25]
  · intro h
    have hvs : sqlVarSamp [100, 110] = some 50 := by
      norm_num [sqlVarSamp]
    rw [show priceDispersionResult [100, 110]
        = .ok (some (Real.sqrt ((50 : ℚ) : ℝ) / ((105 : ℚ) : ℝ) * 100)) from by
      simp only [priceDispersionResult, hvs, havg]
      norm_num] at h
    simp only [Except.ok.injEq, Option.some.injEq] at h
    have h50 : Real.sqrt 50 = 5 := by
      push_cast at h
      have h105 : (105 : ℝ) ≠ 0 := by norm_num
      field_simp at h
      linarith
    have hsq := Real.sq_sqrt (show (0 : ℝ) ≤ 50 by norm_num)
    rw [h50] at hsq
    norm_num at hsq

/-- C5 amended: for at least two active target prices with non-zero
mean, the stored dispersion is the sample standard deviation (squared
deviations divided by `n - 1`) over the mean, times 100; no division
error occurs. -/
theorem c5_sample_stddev_dispersion :
    ∀ (xs : List ℚ) (a : ℚ), 2 ≤ xs.length → sqlAvg xs = some a → a ≠ 0 →
      priceDispersionResult xs
        = .ok (some (Real.sqrt ((sampleVarianceSpec xs : ℚ) : ℝ) / (a : ℝ) * 100)) := by
  intro xs a h2 ha hne
  have hv := sqlVarSamp_eq_sampleVariance xs h2
  simp only [priceDispersionResult, hv, ha]
  simp [hne]

/-- Witness for the amended C5 at target prices 100 and 110 (mean 105,
sample variance 50). -/
theorem c5_sample_stddev_witness :
    priceDispersionResult [100, 110]
      = .ok (some (Real.sqrt ((sampleVarianceSpec [100, 110] : ℚ) : ℝ)
          / ((105 : ℚ) : ℝ) * 100)) :=
  c5_sample_stddev_dispersion [100, 110] 105 (by decide)
    (by norm_num [sqlAvg]; simp) (by norm_num)

/-- C7: a POST /data body with an unknown `type` is answered with
status 400 and an error-message body, and no table changes; each of
the four known types appends exactly its payload row to its own table
(and only that table) with a 200 `{success: true}` response. -/
theorem c7_post_data_dispatch :
    (∀ (ty : String) (d : JVal) (db : ApiDb), ty ∉ knownDataTypes →
      (postData ty d db).1
          = ⟨400, .jobj [("error", .jstr "지원하지 않는 데이터 타입입니다.")]⟩
        ∧ (postData ty d db).2 = db)
    ∧ (∀ (d : JVal) (db : ApiDb), postData "coin_data" d db
        = (⟨200, .jobj [("success", .jbool true)]⟩,
           { db with coin_data := db.coin_data ++ [d] }))
    ∧ (∀ (d : JVal) (db : ApiDb), postData "analyst_target" d db
        = (⟨200, .jobj [("success", .jbool true)]⟩,
           { db with analyst_targets := db.analyst_targets ++ [d] }))
    ∧ (∀ (d : JVal) (db : ApiDb), postData "tweet_sentiment" d db
        = (⟨200, .jobj [("success", .jbool true)]⟩,
           { db with tweet_sentiments := db.tweet_sentiments ++ [d] }))
    ∧ (∀ (d : JVal) (db : ApiDb), postData "correlation_analysis" d db
        = (⟨200, .jobj [("success", .jbool true)]⟩,
           { db with correlation_analysis := db.correlation_analysis ++ [d] })) := by
  refine ⟨?_, fun d db => rfl, fun d db => rfl, fun d db => rfl, fun d db => rfl⟩
  intro ty d db h
  simp only [knownDataTypes, List.mem_cons, List.not_mem_nil, or_false, not_or] at h
  obtain ⟨h1, h2, h3, h4⟩ := h
  simp [postData, h1, h2, h3, h4]

/-- Witness for C7: the unsupported type of the spec example, against
the empty database. -/
theorem c7_post_data_witness :
    ("unsupported" ∉ knownDataTypes)
    ∧ ((postData "unsupported" JVal.jnull emptyApiDb).1
        = ⟨400, .jobj [("error", .jstr "지원하지 않는 데이터 타입입니다.")]⟩
      ∧ (postData "unsupported" JVal.jnull emptyApiDb).2 = emptyApiDb) :=
  ⟨by decide, c7_post_data_dispatch.1 "unsupported" JVal.jnull emptyApiDb (by decide)⟩

/-- C9 counterexample: the success response of GET /coin is the object
with keys coin, targets, tweets and correlation — it has no boolean
`success` field, so it does not conform to the claimed uniform
envelope. -/
theorem c9_coin_response_not_envelope :
    isEnvelope (coinGetOk [] [] [] []).body = false := rfl

/-- C9 amended: the community route's responses conform to the
envelope, as does the data route's success response; but every GET
/coin response (success or error) and the data route's 400 response
carry no `success` field and do not conform. -/
theorem c9_envelope_only_partial :
    (∀ (nowIso : String), isEnvelope (communityGetOk nowIso).body = true)
    ∧ isEnvelope communityGetCatch.body = true
    ∧ (∀ (d : JVal) (db : ApiDb),
        isEnvelope ((postData "coin_data" d db).1.body) = true)
    ∧ (∀ (d : JVal) (db : ApiDb),
        isEnvelope ((postData "unsupported" d db).1.body) = false)
    ∧ (∀ (coins targets tweets correlations : List JVal),
        isEnvelope (coinGetOk coins targets tweets correlations).body = false)
    ∧ isEnvelope coinGetCatch.body = false :=
  ⟨fun _ => rfl, rfl, fun _ _ => rfl, fun _ _ => rfl, fun _ _ _ _ => rfl, rfl⟩

/-- C10: the seed route reports success whenever `seedDatabase` runs to
its final return — the per-row insert errors reported by the database
client are only logged, never propagated — so for every pattern of
insert failures the response is 200 with `success: true`; in
particular, when every insert fails, that success response is returned
while zero sample rows were persisted. -/
theorem c10_seed_success_despite_insert_failures :
    (∀ (coinFails : SeedCoin → Bool) (targetFails : SeedTarget → Bool)
        (tweetFails : SeedTweet → Bool) (corrFails : SeedCorrelation → Bool),
      (seedRoutePost coinFails targetFails tweetFails corrFails).1
        = ⟨200, .jobj
            [("message", .jstr "샘플 데이터가 성공적으로 생성되었습니다.")
            , ("success", .jbool true)]⟩)
    ∧ (seedRoutePost (fun _ => true) (fun _ => true) (fun _ => true) (fun _ => true)).2
        = ⟨[], [], [], []⟩ := by
  constructor
  · intro coinFails targetFails tweetFails corrFails
    rfl
  · decide

end CryptoDash
